import Mathlib

/-!
Verification of the tunnel controller (`app/tunnel/controller.py`) of the
sample-scia-tunnel application.

The controller's domain logic is embedded shallowly:

* Real-valued quantities (coordinates, thicknesses, lengths, loads) are
  modelled by `ℚ` (the Python code computes with IEEE floats; all stated
  properties are exact-arithmetic identities of the same expressions).
* The geographic polyline is projected to planar RD coordinates and measured
  by external libraries (`viktor.geometry`, `shapely`).  We carry the
  projected points and the resulting planar length as data of `GeoPolyline`;
  the projection and the length computation themselves are external black
  boxes.
* The SCIA model builder API (`viktor.external.scia.Model`) is embedded as a
  record of creation lists; each `create_*` call appends one record, exactly
  mirroring the calls made by `create_scia_model`.
* Python failure behaviour (unhandled exceptions) is made explicit with
  `Except PyError`.
-/

/-- Rational plane point, the RD (planar projected) image of a geo point. -/
abbrev RDPoint : Type := ℚ × ℚ

/-- A geo-polyline as consumed by the controller.  `points` are the RD
projections of the drawn points (`pt.rd` in the source); `rdLength` is the
planar length of `LineString(points)` as computed by the external shapely
library, carried here as data since the length computation (a sum of square
roots) is external to the repository's code. -/
structure GeoPolyline where
  points : List RDPoint
  rdLength : ℚ
deriving DecidableEq

/-- Fields of `params.step1` used by the controller. -/
structure Step1Params where
  geo_polyline : Option GeoPolyline
  segments : ℕ
deriving DecidableEq

/-- Fields of `params.step2` used by the controller. -/
structure Step2Params where
  width : ℚ
  height : ℚ
  floor_thickness : ℚ
  roof_thickness : ℚ
  wall_thickness : ℚ
  number_of_sections : ℕ
deriving DecidableEq

/-- Fields of `params.step3` used by the controller. -/
structure Step3Params where
  soil_stiffness : ℚ
  roof_load : ℚ
deriving DecidableEq

/-- The validated parameter set handed to the controller methods. -/
structure Params where
  step1 : Step1Params
  step2 : Step2Params
  step3 : Step3Params
deriving DecidableEq

/-- Python exceptions that the controller code can raise (it defines no
exception class of its own).  `invalidGeometryError` and
`invalidParameterError` are the error classes postulated by the
specification's error taxonomy; they appear in no line of the source and are
included only so that statements about them can be written down. -/
inductive PyError where
  | zeroDivisionError
  | attributeError
  | invalidGeometryError
  | invalidParameterError
deriving DecidableEq

/-- One feature of the map view result.  A `polygon b e` records the ribbon
polygon built for the substring of the centerline between arc lengths `b`
and `e` (the two 40-unit parallel offsets of that substring are produced by
the external shapely library and carry no further arithmetic of this
repository). -/
inductive Feature where
  | polygon (b e : ℚ)
  | polyline
deriving DecidableEq

/-- Arc length of the centerline substring a feature was built from. -/
def Feature.arcLength : Feature → ℚ
  | .polygon b e => e - b
  | .polyline => 0

/-- Embedding of `TunnelController.visualize_tunnel` (controller.py lines
62-82).  A missing polyline returns an empty map result; otherwise the
centerline is cut into `segments` equal-arc-length substrings, one ribbon
polygon per substring, followed by the centerline overlay.  A segment count
of zero makes the Python division `line_string.length / segments` raise
`ZeroDivisionError`. -/
def visualize_tunnel (params : Params) : Except PyError (List Feature) :=
  match params.step1.geo_polyline with
  | none => .ok []
  | some pl =>
    if params.step1.segments = 0 then
      .error .zeroDivisionError
    else
      let segment_length := pl.rdLength / params.step1.segments
      .ok ((List.range params.step1.segments).map
            (fun i : ℕ => Feature.polygon ((i : ℚ) * segment_length)
              (((i : ℚ) + 1) * segment_length))
          ++ [Feature.polyline])

/-- Embedding of `numpy.linspace(start, stop, num)` with the default
`endpoint=True`: `num` evenly spaced samples from `start` to `stop`
inclusive.  Over `ℚ` the final-sample correction `y[-1] = stop` performed by
numpy is an identity and is therefore omitted. -/
def linspace (start stop : ℚ) (num : ℕ) : List ℚ :=
  if num = 0 then []
  else if num = 1 then [start]
  else (List.range num).map
    (fun i : ℕ => start + (i : ℚ) * ((stop - start) / ((num : ℚ) - 1)))

/-- The wall x-positions of the structural model builder:
`np.linspace(wall_thickness / 2, width - (wall_thickness / 2),
number_of_sections + 1)` (controller.py line 173). -/
def sections_x (params : Params) : List ℚ :=
  linspace (params.step2.wall_thickness / 2)
    (params.step2.width - params.step2.wall_thickness / 2)
    (params.step2.number_of_sections + 1)

/-- The wall x-positions of the visualization geometry builder:
`np.linspace(wall_thickness / 2, width - (wall_thickness / 2),
number_of_sections + 1)` (controller.py line 278). -/
def viz_sections_x (params : Params) : List ℚ :=
  linspace (params.step2.wall_thickness / 2)
    (params.step2.width - params.step2.wall_thickness / 2)
    (params.step2.number_of_sections + 1)

/-- A SCIA node: a named point of the structural model. -/
structure SciaNode where
  name : String
  x : ℚ
  y : ℚ
  z : ℚ
deriving DecidableEq

/-- A SCIA material reference (`SciaMaterial(0, 'concrete_slab')`). -/
structure SciaMaterial where
  num : ℕ
  name : String
deriving DecidableEq

/-- A SCIA planar element: 4 corner nodes in winding order, a thickness and
a material. -/
structure SciaPlane where
  name : String
  corner_nodes : List SciaNode
  thickness : ℚ
  material : SciaMaterial
deriving DecidableEq

/-- A SCIA subsoil (soil stiffness) record. -/
structure SciaSubsoil where
  name : String
  stiffness : ℚ
deriving DecidableEq

/-- A SCIA surface support binding a subsoil to a plane. -/
structure SciaSurfaceSupport where
  plane_name : String
  subsoil_name : String
deriving DecidableEq

/-- A SCIA load group; the option fields carry the enum tags passed by the
source (`VARIABLE`, `STANDARD`, `CAT_G`). -/
structure SciaLoadGroup where
  name : String
  load_option : String
  relation : String
  load_type : String
deriving DecidableEq

/-- A SCIA variable load case with its enum tags
(`STATIC`, `STANDARD`, `SHORT`). -/
structure SciaLoadCase where
  name : String
  description : String
  load_group : String
  variable_load_type : String
  specification : String
  duration : String
deriving DecidableEq

/-- A SCIA load combination: combination kind tag and the (load case name,
coefficient) pairs of the Python dict argument. -/
structure SciaLoadCombination where
  name : String
  combination_type : String
  load_cases : List (String × ℚ)
deriving DecidableEq

/-- A SCIA surface load with its enum tags (`Z`, `FORCE`, `GLOBAL`,
`LENGTH`) and signed magnitude. -/
structure SciaSurfaceLoad where
  name : String
  load_case : String
  plane_name : String
  direction : String
  load_kind : String
  force : ℚ
  c_sys : String
  location : String
deriving DecidableEq

/-- The SCIA model: every `create_*` call of the builder appends one record
to the corresponding list, in call order. -/
structure SciaModel where
  nodes : List SciaNode
  planes : List SciaPlane
  subsoils : List SciaSubsoil
  surface_supports : List SciaSurfaceSupport
  load_groups : List SciaLoadGroup
  load_cases : List SciaLoadCase
  load_combinations : List SciaLoadCombination
  surface_loads : List SciaSurfaceLoad
deriving DecidableEq

/-- The freshly constructed model `SciaModel()`. -/
def SciaModel.emptyModel : SciaModel :=
  ⟨[], [], [], [], [], [], [], []⟩

/-- Embedding of `model.create_node(name, x, y, z)`: registers and returns
the node. -/
def SciaModel.create_node (m : SciaModel) (name : String) (x y z : ℚ) :
    SciaModel × SciaNode :=
  let n : SciaNode := ⟨name, x, y, z⟩
  ({ m with nodes := m.nodes ++ [n] }, n)

/-- Embedding of `model.create_plane(corner_nodes, thickness, name,
material)`: registers and returns the plane. -/
def SciaModel.create_plane (m : SciaModel) (corner_nodes : List SciaNode)
    (thickness : ℚ) (name : String) (material : SciaMaterial) :
    SciaModel × SciaPlane :=
  let pl : SciaPlane := ⟨name, corner_nodes, thickness, material⟩
  ({ m with planes := m.planes ++ [pl] }, pl)

/-- Embedding of `model.create_subsoil(name, stiffness)`. -/
def SciaModel.create_subsoil (m : SciaModel) (name : String) (stiffness : ℚ) :
    SciaModel × SciaSubsoil :=
  let s : SciaSubsoil := ⟨name, stiffness⟩
  ({ m with subsoils := m.subsoils ++ [s] }, s)

/-- Embedding of `model.create_surface_support(plane, subsoil)`. -/
def SciaModel.create_surface_support (m : SciaModel) (plane : SciaPlane)
    (subsoil : SciaSubsoil) : SciaModel :=
  { m with surface_supports := m.surface_supports ++ [⟨plane.name, subsoil.name⟩] }

/-- Embedding of `model.create_load_group`. -/
def SciaModel.create_load_group (m : SciaModel) (name lo rel lt : String) :
    SciaModel × SciaLoadGroup :=
  let g : SciaLoadGroup := ⟨name, lo, rel, lt⟩
  ({ m with load_groups := m.load_groups ++ [g] }, g)

/-- Embedding of `model.create_variable_load_case`. -/
def SciaModel.create_variable_load_case (m : SciaModel)
    (name description : String) (g : SciaLoadGroup) (vlt spec dur : String) :
    SciaModel × SciaLoadCase :=
  let c : SciaLoadCase := ⟨name, description, g.name, vlt, spec, dur⟩
  ({ m with load_cases := m.load_cases ++ [c] }, c)

/-- Embedding of `model.create_load_combination`. -/
def SciaModel.create_load_combination (m : SciaModel) (name ct : String)
    (cases : List (String × ℚ)) : SciaModel :=
  { m with load_combinations := m.load_combinations ++ [⟨name, ct, cases⟩] }

/-- Embedding of `model.create_surface_load`. -/
def SciaModel.create_surface_load (m : SciaModel) (name : String)
    (lc : SciaLoadCase) (plane : SciaPlane) (direction kind : String)
    (force : ℚ) (csys loc : String) : SciaModel :=
  { m with surface_loads :=
      m.surface_loads ++ [⟨name, lc.name, plane.name, direction, kind, force, csys, loc⟩] }

/-- The concrete-slab material used for every plane
(`SciaMaterial(0, 'concrete_slab')`, controller.py line 154). -/
def concrete_slab : SciaMaterial :=
  ⟨0, ("concrete_slab")⟩

/-- Loop body of the section-wall loop of `create_scia_model`
(controller.py lines 174-187): for enumeration index `section_id` and wall
position `pile_x`, create the four wall corner nodes and the wall plane. -/
def wall_step (params : Params) (length : ℚ) (m : SciaModel)
    (ix : ℕ × ℚ) : SciaModel :=
  let section_id := ix.1
  let pile_x := ix.2
  let floor_thickness := params.step2.floor_thickness
  let roof_thickness := params.step2.roof_thickness
  let height := params.step2.height
  let r1 := m.create_node ("node_section_wall_" ++ Nat.repr section_id ++ "_f_b")
      pile_x 0 (floor_thickness / 2)
  let r2 := r1.1.create_node ("node_section_wall_" ++ Nat.repr section_id ++ "_f_t")
      pile_x 0 (height - roof_thickness / 2)
  let r3 := r2.1.create_node ("node_section_wall_" ++ Nat.repr section_id ++ "_b_b")
      pile_x length (floor_thickness / 2)
  let r4 := r3.1.create_node ("node_section_wall_" ++ Nat.repr section_id ++ "_b_t")
      pile_x length (height - roof_thickness / 2)
  (r4.1.create_plane [r1.2, r3.2, r4.2, r2.2] params.step2.wall_thickness
      ("section_slab_" ++ Nat.repr section_id) concrete_slab).1

/-- Embedding of `TunnelController.create_scia_model` (controller.py lines
142-214).  A missing polyline makes `params.step1.geo_polyline.points` raise
`AttributeError`; a zero segment count makes the length division raise
`ZeroDivisionError`; otherwise the model is assembled by the recorded
sequence of `create_*` calls. -/
def create_scia_model (params : Params) : Except PyError SciaModel :=
  match params.step1.geo_polyline with
  | none => .error .attributeError
  | some pl =>
    if params.step1.segments = 0 then
      .error .zeroDivisionError
    else
      let length := pl.rdLength / params.step1.segments
      let width := params.step2.width
      let height := params.step2.height
      let floor_thickness := params.step2.floor_thickness
      let roof_thickness := params.step2.roof_thickness
      let material := concrete_slab
      let m := SciaModel.emptyModel
      let r1 := m.create_node ("node_floor_1") 0 0 (floor_thickness / 2)
      let r2 := r1.1.create_node ("node_floor_2") 0 length (floor_thickness / 2)
      let r3 := r2.1.create_node ("node_floor_3") width length (floor_thickness / 2)
      let r4 := r3.1.create_node ("node_floor_4") width 0 (floor_thickness / 2)
      let floor_nodes := [r1.2, r2.2, r3.2, r4.2]
      let rfp := r4.1.create_plane floor_nodes floor_thickness ("floor slab") material
      let floor_plane := rfp.2
      let r5 := rfp.1.create_node ("node_roof_1") 0 0 (height - roof_thickness / 2)
      let r6 := r5.1.create_node ("node_roof_2") 0 length (height - roof_thickness / 2)
      let r7 := r6.1.create_node ("node_roof_3") width length (height - roof_thickness / 2)
      let r8 := r7.1.create_node ("node_roof_4") width 0 (height - roof_thickness / 2)
      let roof_nodes := [r5.2, r6.2, r7.2, r8.2]
      let rrp := r8.1.create_plane roof_nodes roof_thickness ("roof slab") material
      let roof_plane := rrp.2
      let mWalls := (sections_x params).enum.foldl (wall_step params length) rrp.1
      let rss := mWalls.create_subsoil ("subsoil") params.step3.soil_stiffness
      let mSup := rss.1.create_surface_support floor_plane rss.2
      let rlg := mSup.create_load_group ("LG1") ("VARIABLE") ("STANDARD") ("CAT_G")
      let rlc := rlg.1.create_variable_load_case ("LC1") ("first load case") rlg.2
          ("STATIC") ("STANDARD") ("SHORT")
      let mComb := rlc.1.create_load_combination ("C1") ("ENVELOPE_SERVICEABILITY")
          [(rlc.2.name, 1)]
      let force := params.step3.roof_load * (-1000)
      .ok (mComb.create_surface_load ("SF:1") rlc.2 roof_plane ("Z") ("FORCE")
          force ("GLOBAL") ("LENGTH"))

/-- A VIKTOR `Extrusion` primitive as created by the visualization builder:
a closed planar profile, the extrusion line (two 3d points) and the profile
rotation argument (0 when the source omits it). -/
structure Extrusion where
  profile : List RDPoint
  line_from : ℚ × ℚ × ℚ
  line_to : ℚ × ℚ × ℚ
  profile_rotation : ℚ
deriving DecidableEq

/-- Embedding of `TunnelController.create_visualization_geometries`
(controller.py lines 216-291): floor slab, roof slab, left wall, right wall,
then one wall per interior entry `sections_x[1:-1]` of the linspace wall
positions. -/
def create_visualization_geometries (params : Params) :
    Except PyError (List Extrusion) :=
  match params.step1.geo_polyline with
  | none => .error .attributeError
  | some pl =>
    if params.step1.segments = 0 then
      .error .zeroDivisionError
    else
      let width := params.step2.width
      let length := pl.rdLength / params.step1.segments
      let height := params.step2.height
      let floor_thickness := params.step2.floor_thickness
      let roof_thickness := params.step2.roof_thickness
      let wall_thickness := params.step2.wall_thickness
      let floor_points : List RDPoint :=
        [(0, 0), (0, length), (width, length), (width, 0), (0, 0)]
      let section_wall_points : List RDPoint :=
        [(0, 0), (0, height - floor_thickness - roof_thickness),
         (length, height - floor_thickness - roof_thickness), (length, 0), (0, 0)]
      let floor_slab_obj : Extrusion :=
        ⟨floor_points, (0, 0, 0), (0, 0, floor_thickness), 0⟩
      let roof_slab_obj : Extrusion :=
        ⟨floor_points, (0, 0, height - roof_thickness), (0, 0, height), 0⟩
      let wall_slab_left_obj : Extrusion :=
        ⟨section_wall_points, (0, 0, floor_thickness),
         (wall_thickness, 0, floor_thickness), 90⟩
      let wall_slab_right_obj : Extrusion :=
        ⟨section_wall_points, (width - wall_thickness, 0, floor_thickness),
         (width, 0, floor_thickness), 90⟩
      let interior_walls :=
        (((viz_sections_x params).drop 1).dropLast).map fun section_x =>
          (⟨section_wall_points,
            (section_x - wall_thickness / 2, 0, floor_thickness),
            (section_x + wall_thickness / 2, 0, floor_thickness), 90⟩ : Extrusion)
      .ok ([floor_slab_obj, roof_slab_obj, wall_slab_left_obj, wall_slab_right_obj]
            ++ interior_walls)

/-- Validity of a cross-section parameter set in the sense of the
specification: every physical scalar positive and at least one section. -/
def ValidCrossSection (params : Params) : Prop :=
  0 < params.step2.width ∧ 0 < params.step2.height ∧
  0 < params.step2.floor_thickness ∧ 0 < params.step2.roof_thickness ∧
  0 < params.step2.wall_thickness ∧ 1 ≤ params.step2.number_of_sections ∧
  0 < params.step3.soil_stiffness ∧ 0 < params.step3.roof_load

instance (params : Params) : Decidable (ValidCrossSection params) := by
  unfold ValidCrossSection; infer_instance

/-- The segment length derived by the controller: projected polyline length
divided by the segment count. -/
def seg_length (params : Params) (pl : GeoPolyline) : ℚ :=
  pl.rdLength / params.step1.segments

/-- The four floor corner nodes, in creation order. -/
def floor_node_list (params : Params) (length : ℚ) : List SciaNode :=
  let ft := params.step2.floor_thickness
  let w := params.step2.width
  [⟨("node_floor_1"), 0, 0, ft / 2⟩, ⟨("node_floor_2"), 0, length, ft / 2⟩,
   ⟨("node_floor_3"), w, length, ft / 2⟩, ⟨("node_floor_4"), w, 0, ft / 2⟩]

/-- The four roof corner nodes, in creation order. -/
def roof_node_list (params : Params) (length : ℚ) : List SciaNode :=
  let z := params.step2.height - params.step2.roof_thickness / 2
  let w := params.step2.width
  [⟨("node_roof_1"), 0, 0, z⟩, ⟨("node_roof_2"), 0, length, z⟩,
   ⟨("node_roof_3"), w, length, z⟩, ⟨("node_roof_4"), w, 0, z⟩]

/-- The four wall corner nodes created for one enumerated wall position. -/
def wall_node_list (params : Params) (length : ℚ) (ix : ℕ × ℚ) :
    List SciaNode :=
  let ft := params.step2.floor_thickness
  let zt := params.step2.height - params.step2.roof_thickness / 2
  [⟨"node_section_wall_" ++ Nat.repr ix.1 ++ "_f_b", ix.2, 0, ft / 2⟩,
   ⟨"node_section_wall_" ++ Nat.repr ix.1 ++ "_f_t", ix.2, 0, zt⟩,
   ⟨"node_section_wall_" ++ Nat.repr ix.1 ++ "_b_b", ix.2, length, ft / 2⟩,
   ⟨"node_section_wall_" ++ Nat.repr ix.1 ++ "_b_t", ix.2, length, zt⟩]

/-- The wall plane created for one enumerated wall position: corners in
winding order front-bottom, back-bottom, back-top, front-top. -/
def wall_plane_rec (params : Params) (length : ℚ) (ix : ℕ × ℚ) : SciaPlane :=
  let ft := params.step2.floor_thickness
  let zt := params.step2.height - params.step2.roof_thickness / 2
  ⟨"section_slab_" ++ Nat.repr ix.1,
   [⟨"node_section_wall_" ++ Nat.repr ix.1 ++ "_f_b", ix.2, 0, ft / 2⟩,
    ⟨"node_section_wall_" ++ Nat.repr ix.1 ++ "_b_b", ix.2, length, ft / 2⟩,
    ⟨"node_section_wall_" ++ Nat.repr ix.1 ++ "_b_t", ix.2, length, zt⟩,
    ⟨"node_section_wall_" ++ Nat.repr ix.1 ++ "_f_t", ix.2, 0, zt⟩],
   params.step2.wall_thickness, concrete_slab⟩

/-- The floor plane record. -/
def floor_plane_rec (params : Params) (length : ℚ) : SciaPlane :=
  ⟨("floor slab"), floor_node_list params length,
   params.step2.floor_thickness, concrete_slab⟩

/-- The roof plane record. -/
def roof_plane_rec (params : Params) (length : ℚ) : SciaPlane :=
  ⟨("roof slab"), roof_node_list params length,
   params.step2.roof_thickness, concrete_slab⟩

/-- Closed form of the model assembled by `create_scia_model` when the
polyline is present and the segment count is nonzero. -/
def model_closed (params : Params) (pl : GeoPolyline) : SciaModel :=
  let length := seg_length params pl
  { nodes := floor_node_list params length ++ roof_node_list params length
      ++ (sections_x params).enum.flatMap (wall_node_list params length)
    planes := [floor_plane_rec params length, roof_plane_rec params length]
      ++ (sections_x params).enum.map (wall_plane_rec params length)
    subsoils := [⟨("subsoil"), params.step3.soil_stiffness⟩]
    surface_supports := [⟨("floor slab"), ("subsoil")⟩]
    load_groups := [⟨("LG1"), ("VARIABLE"), ("STANDARD"), ("CAT_G")⟩]
    load_cases := [⟨("LC1"), ("first load case"), ("LG1"), ("STATIC"),
      ("STANDARD"), ("SHORT")⟩]
    load_combinations := [⟨("C1"), ("ENVELOPE_SERVICEABILITY"), [(("LC1"), 1)]⟩]
    surface_loads := [⟨("SF:1"), ("LC1"), ("roof slab"), ("Z"), ("FORCE"),
      params.step3.roof_load * (-1000), ("GLOBAL"), ("LENGTH")⟩] }

theorem wall_step_eq (params : Params) (length : ℚ) (m : SciaModel)
    (ix : ℕ × ℚ) :
    wall_step params length m ix =
      { m with nodes := m.nodes ++ wall_node_list params length ix,
               planes := m.planes ++ [wall_plane_rec params length ix] } := by
  simp [wall_step, SciaModel.create_node, SciaModel.create_plane,
    wall_node_list, wall_plane_rec, List.append_assoc]

theorem foldl_wall_step (params : Params) (length : ℚ) :
    ∀ (l : List (ℕ × ℚ)) (m : SciaModel),
      l.foldl (wall_step params length) m =
        { m with nodes := m.nodes ++ l.flatMap (wall_node_list params length),
                 planes := m.planes ++ l.map (wall_plane_rec params length) }
  | [], m => by simp
  | ix :: l, m => by
    simp only [List.foldl_cons, foldl_wall_step params length l,
      wall_step_eq, List.flatMap_cons, List.map_cons, List.append_assoc,
      List.singleton_append]

theorem create_scia_model_eq (params : Params) (pl : GeoPolyline)
    (hpl : params.step1.geo_polyline = some pl)
    (hs : params.step1.segments ≠ 0) :
    create_scia_model params = .ok (model_closed params pl) := by
  simp only [create_scia_model, hpl, hs, if_false, ite_false, if_neg,
    SciaModel.emptyModel, SciaModel.create_node, SciaModel.create_plane,
    SciaModel.create_subsoil, SciaModel.create_surface_support,
    SciaModel.create_load_group, SciaModel.create_variable_load_case,
    SciaModel.create_load_combination, SciaModel.create_surface_load,
    foldl_wall_step, model_closed, seg_length, floor_node_list,
    roof_node_list, floor_plane_rec, roof_plane_rec]
  simp

theorem linspace_length (start stop : ℚ) :
    ∀ num : ℕ, (linspace start stop num).length = num
  | 0 => rfl
  | 1 => rfl
  | (n + 2) => by
    rw [linspace, if_neg (by omega), if_neg (by omega), List.length_map,
      List.length_range]

theorem linspace_getElem (start stop : ℚ) (num : ℕ) (h2 : 2 ≤ num)
    (i : ℕ) (hi : i < num) :
    (linspace start stop num)[i]? =
      some (start + i * ((stop - start) / ((num : ℚ) - 1))) := by
  rw [linspace, if_neg (by omega), if_neg (by omega), List.getElem?_map,
    List.getElem?_range hi]
  rfl

theorem sections_x_length (params : Params) :
    (sections_x params).length = params.step2.number_of_sections + 1 := by
  simp [sections_x, linspace_length]

theorem sections_x_getElem (params : Params)
    (hns : 1 ≤ params.step2.number_of_sections)
    (i : ℕ) (hi : i ≤ params.step2.number_of_sections) :
    (sections_x params)[i]? =
      some (params.step2.wall_thickness / 2 +
        i * ((params.step2.width - params.step2.wall_thickness) /
          (params.step2.number_of_sections : ℚ))) := by
  rw [sections_x, linspace_getElem _ _ _ (by omega) i (by omega)]
  congr 1
  push_cast
  ring_nf

theorem wall_nodes_flatMap_length (params : Params) (length : ℚ) :
    ∀ l : List (ℕ × ℚ),
      (l.flatMap (wall_node_list params length)).length = 4 * l.length
  | [] => by simp
  | ix :: l => by
    simp [List.flatMap_cons, wall_node_list,
      wall_nodes_flatMap_length params length l]
    omega

theorem model_closed_counts (params : Params) (pl : GeoPolyline) :
    (model_closed params pl).nodes.length =
        4 + 4 + 4 * (params.step2.number_of_sections + 1) ∧
      (model_closed params pl).planes.length =
        2 + (params.step2.number_of_sections + 1) := by
  have h1 := wall_nodes_flatMap_length params (seg_length params pl)
    (sections_x params).enum
  constructor
  · simp only [model_closed, List.length_append, h1, List.enum_length,
      sections_x_length, floor_node_list, roof_node_list, List.length_cons,
      List.length_nil]
  · simp only [model_closed, List.length_append, List.length_map,
      List.enum_length, sections_x_length, List.length_cons, List.length_nil]

/-- Numeric value of a decimal digit character. -/
def digitVal (c : Char) : ℕ := c.toNat - 48

/-- Decimal value of a most-significant-first digit character list. -/
def decodeDigits (l : List Char) : ℕ :=
  l.foldl (fun a c => 10 * a + digitVal c) 0

theorem toDigitsCore_eq_append (fuel : ℕ) :
    ∀ (n : ℕ) (l : List Char),
      Nat.toDigitsCore 10 fuel n l = Nat.toDigitsCore 10 fuel n [] ++ l := by
  induction fuel with
  | zero => intro n l; rfl
  | succ f ih =>
    intro n l
    by_cases h : n / 10 = 0
    · simp [Nat.toDigitsCore, h]
    · simp only [Nat.toDigitsCore, h, if_false]
      rw [ih (n / 10) (Nat.digitChar (n % 10) :: l),
        ih (n / 10) [Nat.digitChar (n % 10)]]
      simp

theorem digitVal_digitChar (m : ℕ) (h : m < 10) :
    digitVal (Nat.digitChar m) = m := by
  interval_cases m <;> rfl

theorem decodeDigits_toDigitsCore :
    ∀ (fuel n : ℕ), n < 10 ^ fuel →
      decodeDigits (Nat.toDigitsCore 10 fuel n []) = n := by
  intro fuel
  induction fuel with
  | zero =>
    intro n hn
    have : n = 0 := by simpa using hn
    subst this; rfl
  | succ f ih =>
    intro n hn
    by_cases h : n / 10 = 0
    · have hlt : n < 10 := by omega
      simp only [Nat.toDigitsCore, h, if_true, reduceIte]
      simp [decodeDigits, digitVal_digitChar (n % 10) (by omega)]
      omega
    · simp only [Nat.toDigitsCore, h, if_false]
      rw [toDigitsCore_eq_append]
      have hsplit :
          decodeDigits (Nat.toDigitsCore 10 f (n / 10) [] ++ [Nat.digitChar (n % 10)]) =
            10 * decodeDigits (Nat.toDigitsCore 10 f (n / 10) []) +
              digitVal (Nat.digitChar (n % 10)) := by
        simp [decodeDigits, List.foldl_append]
      rw [hsplit, ih (n / 10) (by
        have h10 : (0:ℕ) < 10 := by norm_num
        rw [Nat.div_lt_iff_lt_mul h10]
        calc n < 10 ^ (f + 1) := hn
          _ = 10 ^ f * 10 := by rw [pow_succ]),
        digitVal_digitChar (n % 10) (by omega)]
      omega

theorem decodeDigits_repr (n : ℕ) : decodeDigits (Nat.repr n).data = n := by
  have h : n < 10 ^ (n + 1) := by
    calc n < 10 ^ n := Nat.lt_pow_self (by norm_num) n
      _ ≤ 10 ^ (n + 1) := Nat.pow_le_pow_right (by norm_num) (by omega)
  exact decodeDigits_toDigitsCore (n + 1) n h

theorem repr_injective : Function.Injective Nat.repr := by
  intro a b h
  have := congrArg (fun s : String => decodeDigits s.data) h
  simpa [decodeDigits_repr] using this

theorem toDigitsCore_isDigit (fuel : ℕ) :
    ∀ (n : ℕ) (l : List Char), (∀ c ∈ l, c.isDigit = true) →
      ∀ c ∈ Nat.toDigitsCore 10 fuel n l, c.isDigit = true := by
  induction fuel with
  | zero => intro n l hl; exact hl
  | succ f ih =>
    intro n l hl
    have hd : (Nat.digitChar (n % 10)).isDigit = true := by
      have h10 : n % 10 < 10 := by omega
      interval_cases h : (n % 10) <;> rfl
    by_cases h : n / 10 = 0
    · simp only [Nat.toDigitsCore, h, if_true, reduceIte]
      intro c hc
      rcases List.mem_cons.mp hc with rfl | hc
      · exact hd
      · exact hl c hc
    · simp only [Nat.toDigitsCore, h, if_false]
      refine ih (n / 10) _ ?_
      intro c hc
      rcases List.mem_cons.mp hc with rfl | hc
      · exact hd
      · exact hl c hc

theorem repr_isDigit (n : ℕ) : ∀ c ∈ (Nat.repr n).data, c.isDigit = true := by
  intro c hc
  exact toDigitsCore_isDigit (n + 1) n [] (by simp) c hc

theorem digit_run_split :
    ∀ (l1 l2 a b : List Char),
      (∀ c ∈ l1, c.isDigit = true) → (∀ c ∈ l2, c.isDigit = true) →
      (∀ c, a.head? = some c → c.isDigit = false) →
      (∀ c, b.head? = some c → c.isDigit = false) →
      l1 ++ a = l2 ++ b → l1 = l2 ∧ a = b
  | [], [], a, b => fun _ _ _ _ h => ⟨rfl, h⟩
  | [], c2 :: l2, a, b => by
    intro _ h2 ha _ h
    exfalso
    simp only [List.nil_append, List.cons_append] at h
    have hhead : a.head? = some c2 := by rw [h]; rfl
    have := ha c2 hhead
    have := h2 c2 (by simp)
    simp_all
  | c1 :: l1, [], a, b => by
    intro h1 _ _ hb h
    exfalso
    simp only [List.nil_append, List.cons_append] at h
    have hhead : b.head? = some c1 := by rw [← h]; rfl
    have := hb c1 hhead
    have := h1 c1 (by simp)
    simp_all
  | c1 :: l1, c2 :: l2, a, b => by
    intro h1 h2 ha hb h
    simp only [List.cons_append, List.cons.injEq] at h
    obtain ⟨rfl, htail⟩ := h
    obtain ⟨hl, hr⟩ := digit_run_split l1 l2 a b
      (fun c hc => h1 c (by simp [hc])) (fun c hc => h2 c (by simp [hc]))
      ha hb htail
    exact ⟨by rw [hl], hr⟩

/-- The eight fixed floor/roof node names, in creation order. -/
def fixed_node_names : List String :=
  [("node_floor_1"), ("node_floor_2"), ("node_floor_3"), ("node_floor_4"),
   ("node_roof_1"), ("node_roof_2"), ("node_roof_3"), ("node_roof_4")]

/-- The four node names created for section wall `i`, in creation order. -/
def section_node_names (i : ℕ) : List String :=
  ["node_section_wall_" ++ Nat.repr i ++ "_f_b",
   "node_section_wall_" ++ Nat.repr i ++ "_f_t",
   "node_section_wall_" ++ Nat.repr i ++ "_b_b",
   "node_section_wall_" ++ Nat.repr i ++ "_b_t"]

/-- The two fixed plane names, in creation order. -/
def fixed_plane_names : List String :=
  [("floor slab"), ("roof slab")]

/-- The plane name created for section wall `i`. -/
def section_plane_name (i : ℕ) : String :=
  "section_slab_" ++ Nat.repr i

theorem map_name_wall (params : Params) (length : ℚ) (ix : ℕ × ℚ) :
    (wall_node_list params length ix).map SciaNode.name =
      section_node_names ix.1 := rfl

theorem model_node_names (params : Params) (pl : GeoPolyline) :
    (model_closed params pl).nodes.map SciaNode.name =
      fixed_node_names ++
        (List.range (params.step2.number_of_sections + 1)).flatMap
          section_node_names := by
  simp only [model_closed, List.map_append, List.map_flatMap, map_name_wall]
  rw [← List.flatMap_map Prod.fst section_node_names, List.enum_map_fst,
    sections_x_length]
  simp [floor_node_list, roof_node_list, fixed_node_names]

theorem model_plane_names (params : Params) (pl : GeoPolyline) :
    (model_closed params pl).planes.map SciaPlane.name =
      fixed_plane_names ++
        (List.range (params.step2.number_of_sections + 1)).map
          section_plane_name := by
  simp only [model_closed, List.map_append, List.map_map, List.map_cons,
    List.map_nil]
  rw [show (SciaPlane.name ∘ wall_plane_rec params (seg_length params pl)) =
      (fun ix : ℕ × ℚ => section_plane_name ix.1) from rfl,
    show (fun ix : ℕ × ℚ => section_plane_name ix.1) =
      (section_plane_name ∘ Prod.fst) from rfl,
    ← List.map_map, List.enum_map_fst, sections_x_length]
  simp [floor_plane_rec, roof_plane_rec, fixed_plane_names,
    section_plane_name]

theorem str_append_cancel (a : String) {s t : String}
    (h : a ++ s = a ++ t) : s = t := by
  have hd := congrArg String.data h
  rw [String.data_append, String.data_append] at hd
  exact String.ext (List.append_cancel_left hd)

theorem head_not_digit {s : String} {c0 : Char} (h0 : s.data.head? = some c0)
    (hc : c0.isDigit = false) :
    ∀ c, s.data.head? = some c → c.isDigit = false := by
  intro c hc'
  rw [h0, Option.some_inj] at hc'
  rw [← hc']
  exact hc

theorem repr_token_split {a : String} {i j : ℕ} {su sv : String}
    (hsu : ∀ c, su.data.head? = some c → c.isDigit = false)
    (hsv : ∀ c, sv.data.head? = some c → c.isDigit = false)
    (h : a ++ Nat.repr i ++ su = a ++ Nat.repr j ++ sv) : i = j ∧ su = sv := by
  have hd := congrArg String.data h
  simp only [String.data_append] at hd
  rw [List.append_assoc, List.append_assoc] at hd
  have h3 := List.append_cancel_left hd
  obtain ⟨hr, hs⟩ := digit_run_split (Nat.repr i).data (Nat.repr j).data
    su.data sv.data (repr_isDigit i) (repr_isDigit j) hsu hsv h3
  exact ⟨repr_injective (String.ext hr), String.ext hs⟩

theorem section_node_names_nodup (i : ℕ) : (section_node_names i).Nodup := by
  have key : ∀ s t : String, s ≠ t →
      "node_section_wall_" ++ Nat.repr i ++ s ≠
        "node_section_wall_" ++ Nat.repr i ++ t :=
    fun _ _ hst h => hst (str_append_cancel _ h)
  have heq : section_node_names i =
      (["_f_b", "_f_t", "_b_b", "_b_t"]).map
        (fun s => "node_section_wall_" ++ Nat.repr i ++ s) := rfl
  rw [heq]
  exact List.Nodup.map (fun s t h => by
    by_contra hst
    exact key s t hst h) (by decide)

theorem mem_section_node_names {x : String} {i : ℕ}
    (h : x ∈ section_node_names i) :
    ∃ su : String, su.data.head? = some '_' ∧
      x = "node_section_wall_" ++ Nat.repr i ++ su := by
  simp only [section_node_names, List.mem_cons, List.mem_singleton,
    List.not_mem_nil, or_false] at h
  rcases h with rfl | rfl | rfl | rfl
  · exact ⟨("_f_b"), rfl, rfl⟩
  · exact ⟨("_f_t"), rfl, rfl⟩
  · exact ⟨("_b_b"), rfl, rfl⟩
  · exact ⟨("_b_t"), rfl, rfl⟩

theorem section_groups_disjoint {i j : ℕ} (hij : i ≠ j) :
    List.Disjoint (section_node_names i) (section_node_names j) := by
  intro x hxi hxj
  obtain ⟨su, hsu, rfl⟩ := mem_section_node_names hxi
  obtain ⟨sv, hsv, heq⟩ := mem_section_node_names hxj
  obtain ⟨hji, -⟩ := repr_token_split (head_not_digit hsu (by decide))
    (head_not_digit hsv (by decide)) heq
  exact hij hji

theorem section_node_name_char5 (r s : String) :
    ("node_section_wall_" ++ r ++ s).data[5]? = some 's' := by
  have h : ("node_section_wall_" ++ r ++ s).data =
      "node_section_wall_".data ++ (r.data ++ s.data) := by
    simp [String.data_append]
  rw [h, List.getElem?_append_left (by decide)]
  rfl

theorem fixed_ne_section (x : String) (hx : x ∈ fixed_node_names)
    (i : ℕ) (su : String) :
    x ≠ "node_section_wall_" ++ Nat.repr i ++ su := by
  intro heq
  have h5 : x.data[5]? = ("node_section_wall_" ++ Nat.repr i ++ su).data[5]? :=
    congrArg (fun s : String => s.data[5]?) heq
  rw [section_node_name_char5] at h5
  fin_cases hx <;> exact absurd h5 (by decide)

theorem model_node_names_nodup (params : Params) (pl : GeoPolyline) :
    ((model_closed params pl).nodes.map SciaNode.name).Nodup := by
  rw [model_node_names, List.nodup_append]
  refine ⟨by decide, ?_, ?_⟩
  · rw [List.nodup_flatMap]
    refine ⟨fun i _ => section_node_names_nodup i, ?_⟩
    have hp := List.pairwise_lt_range (params.step2.number_of_sections + 1)
    exact hp.imp (fun hlt => section_groups_disjoint (Nat.ne_of_lt hlt))
  · intro x hx1 hx2
    rw [List.mem_flatMap] at hx2
    obtain ⟨i, -, hxi⟩ := hx2
    obtain ⟨su, -, heq⟩ := mem_section_node_names hxi
    exact fixed_ne_section x hx1 i su heq

theorem section_plane_name_inj : Function.Injective section_plane_name := by
  intro i j h
  exact repr_injective (str_append_cancel ("section_slab_") h)

theorem section_plane_name_char0 (i : ℕ) :
    (section_plane_name i).data[0]? = some 's' := by
  rw [section_plane_name]
  have h : ("section_slab_" ++ Nat.repr i).data =
      "section_slab_".data ++ (Nat.repr i).data := String.data_append _ _
  rw [h, List.getElem?_append_left (by decide)]
  rfl

theorem fixed_ne_section_plane (x : String) (hx : x ∈ fixed_plane_names)
    (i : ℕ) : x ≠ section_plane_name i := by
  intro heq
  have h0 : x.data[0]? = (section_plane_name i).data[0]? :=
    congrArg (fun s : String => s.data[0]?) heq
  rw [section_plane_name_char0] at h0
  fin_cases hx <;> exact absurd h0 (by decide)

theorem model_plane_names_nodup (params : Params) (pl : GeoPolyline) :
    ((model_closed params pl).planes.map SciaPlane.name).Nodup := by
  rw [model_plane_names, List.nodup_append]
  refine ⟨by decide, List.Nodup.map section_plane_name_inj
    (List.nodup_range _), ?_⟩
  intro x hx1 hx2
  rw [List.mem_map] at hx2
  obtain ⟨i, -, heq⟩ := hx2
  exact fixed_ne_section_plane x hx1 i heq.symm

/-- A sample drawn polyline: two RD points, projected length 100. -/
def sample_polyline : GeoPolyline :=
  ⟨[(0, 0), (100, 0)], 100⟩

/-- A sample valid parameter set: 4 segments of the length-100 polyline,
width 10, height 6, all thicknesses 1, 2 sections, soil stiffness 400,
roof load 5. -/
def sample_params : Params :=
  ⟨⟨some sample_polyline, 4⟩, ⟨10, 6, 1, 1, 1, 2⟩, ⟨400, 5⟩⟩

/-- The sample parameters with a zero segment count. -/
def zero_segments_params : Params :=
  ⟨⟨some sample_polyline, 0⟩, ⟨10, 6, 1, 1, 1, 2⟩, ⟨400, 5⟩⟩

/-- The sample parameters with no polyline drawn. -/
def no_polyline_params : Params :=
  ⟨⟨none, 4⟩, ⟨10, 6, 1, 1, 1, 2⟩, ⟨400, 5⟩⟩

/-- A parameter set violating the specification's validity contract:
negative width and zero sections. -/
def invalid_dims_params : Params :=
  ⟨⟨some sample_polyline, 4⟩, ⟨-3, 6, 1, 1, 1, 0⟩, ⟨400, 5⟩⟩

/-- C1: for every valid cross-section parameter set (with a polyline
present and a nonzero segment count so that the derived length exists), the
structural model builder creates exactly `4 + 4 + 4*(number_of_sections+1)`
nodes and exactly `2 + (number_of_sections+1)` planar elements. -/
theorem node_and_plane_counts (params : Params) (pl : GeoPolyline)
    (hpl : params.step1.geo_polyline = some pl)
    (hs : params.step1.segments ≠ 0)
    (_hv : ValidCrossSection params) :
    ∃ m, create_scia_model params = .ok m ∧
      m.nodes.length = 4 + 4 + 4 * (params.step2.number_of_sections + 1) ∧
      m.planes.length = 2 + (params.step2.number_of_sections + 1) :=
  ⟨model_closed params pl, create_scia_model_eq params pl hpl hs,
    (model_closed_counts params pl).1, (model_closed_counts params pl).2⟩

/-- Witness for C1 at the sample parameters. -/
theorem node_and_plane_counts_witness :
    sample_params.step1.geo_polyline = some sample_polyline ∧
    sample_params.step1.segments ≠ 0 ∧
    ValidCrossSection sample_params ∧
    (∃ m, create_scia_model sample_params = .ok m ∧
      m.nodes.length = 4 + 4 + 4 * (sample_params.step2.number_of_sections + 1) ∧
      m.planes.length = 2 + (sample_params.step2.number_of_sections + 1)) :=
  ⟨rfl, by decide, by decide,
    node_and_plane_counts sample_params sample_polyline rfl (by decide) (by decide)⟩

/-- C9: within any one structural model produced by the builder with valid
parameters, all node names are pairwise distinct and all planar-element
names are pairwise distinct. -/
theorem model_names_unique (params : Params) (pl : GeoPolyline)
    (hpl : params.step1.geo_polyline = some pl)
    (hs : params.step1.segments ≠ 0)
    (_hv : ValidCrossSection params) :
    ∃ m, create_scia_model params = .ok m ∧
      (m.nodes.map SciaNode.name).Nodup ∧
      (m.planes.map SciaPlane.name).Nodup :=
  ⟨model_closed params pl, create_scia_model_eq params pl hpl hs,
    model_node_names_nodup params pl, model_plane_names_nodup params pl⟩

/-- Witness for C9 at the sample parameters. -/
theorem model_names_unique_witness :
    sample_params.step1.geo_polyline = some sample_polyline ∧
    sample_params.step1.segments ≠ 0 ∧
    ValidCrossSection sample_params ∧
    (∃ m, create_scia_model sample_params = .ok m ∧
      (m.nodes.map SciaNode.name).Nodup ∧
      (m.planes.map SciaPlane.name).Nodup) :=
  ⟨rfl, by decide, by decide,
    model_names_unique sample_params sample_polyline rfl (by decide) (by decide)⟩

/-- C10: when the input parameters contain no geo-polyline, the map view
handler raises nothing and returns a map result with an empty feature
list. -/
theorem missing_polyline_map_view (params : Params)
    (h : params.step1.geo_polyline = none) :
    visualize_tunnel params = .ok [] := by
  simp [visualize_tunnel, h]

/-- Witness for C10 at the polyline-free sample parameters. -/
theorem missing_polyline_map_view_witness :
    no_polyline_params.step1.geo_polyline = none ∧
    visualize_tunnel no_polyline_params = .ok [] :=
  ⟨rfl, missing_polyline_map_view no_polyline_params rfl⟩

/-- C6 counterexample: with a polyline present and a segment count of zero
the map view handler fails with `ZeroDivisionError`, not with the
`InvalidGeometryError` postulated by the claim (no such error class exists
in the code). -/
theorem zero_segments_counterexample :
    visualize_tunnel zero_segments_params = .error .zeroDivisionError ∧
    visualize_tunnel zero_segments_params ≠ .error .invalidGeometryError := by
  have h1 : visualize_tunnel zero_segments_params = .error .zeroDivisionError := rfl
  refine ⟨h1, ?_⟩
  rw [h1]
  simp

/-- C6 amended: with a polyline present, a segment count of zero makes the
map view handler fail with an unhandled `ZeroDivisionError` (raised by the
division `line_string.length / segments`) before any feature is
produced. -/
theorem zero_segments_behavior (params : Params) (pl : GeoPolyline)
    (hpl : params.step1.geo_polyline = some pl)
    (hs : params.step1.segments = 0) :
    visualize_tunnel params = .error .zeroDivisionError := by
  simp [visualize_tunnel, hpl, hs]

/-- Witness for the amended C6 at the zero-segment sample parameters. -/
theorem zero_segments_behavior_witness :
    zero_segments_params.step1.geo_polyline = some sample_polyline ∧
    zero_segments_params.step1.segments = 0 ∧
    visualize_tunnel zero_segments_params = .error .zeroDivisionError :=
  ⟨rfl, rfl, zero_segments_behavior zero_segments_params sample_polyline rfl rfl⟩

/-- C7 counterexample: at a parameter set with negative width and zero
sections the builder does not fail with any error; it returns a fully
assembled model of 12 nodes and 3 planar elements. -/
theorem no_validation_counterexample :
    invalid_dims_params.step2.width ≤ 0 ∧
    invalid_dims_params.step2.number_of_sections < 1 ∧
    (create_scia_model invalid_dims_params).map
      (fun m => (m.nodes.length, m.planes.length)) = .ok (12, 3) := by
  refine ⟨by norm_num [invalid_dims_params], by decide, ?_⟩
  rw [create_scia_model_eq invalid_dims_params sample_polyline rfl (by decide)]
  have h := model_closed_counts invalid_dims_params sample_polyline
  simp only [Except.map, h.1, h.2]
  simp [invalid_dims_params]

/-- C7 amended: `create_scia_model` performs no parameter validation at
all.  Whenever a polyline is present and the segment count is nonzero it
returns a fully assembled model - with the full complement of nodes,
planes, one surface support and one surface load - regardless of the signs
of the dimensional parameters and for every `number_of_sections`,
including values the specification calls invalid. -/
theorem builder_never_validates (params : Params) (pl : GeoPolyline)
    (hpl : params.step1.geo_polyline = some pl)
    (hs : params.step1.segments ≠ 0) :
    ∃ m, create_scia_model params = .ok m ∧
      m.nodes.length = 4 + 4 + 4 * (params.step2.number_of_sections + 1) ∧
      m.planes.length = 2 + (params.step2.number_of_sections + 1) ∧
      m.surface_supports.length = 1 ∧
      m.surface_loads.length = 1 :=
  ⟨model_closed params pl, create_scia_model_eq params pl hpl hs,
    (model_closed_counts params pl).1, (model_closed_counts params pl).2,
    rfl, rfl⟩

/-- Witness for the amended C7, applied at the invalid parameter set. -/
theorem builder_never_validates_witness :
    invalid_dims_params.step1.geo_polyline = some sample_polyline ∧
    invalid_dims_params.step1.segments ≠ 0 ∧
    (∃ m, create_scia_model invalid_dims_params = .ok m ∧
      m.nodes.length = 4 + 4 + 4 * (invalid_dims_params.step2.number_of_sections + 1) ∧
      m.planes.length = 2 + (invalid_dims_params.step2.number_of_sections + 1) ∧
      m.surface_supports.length = 1 ∧
      m.surface_loads.length = 1) :=
  ⟨rfl, by decide,
    builder_never_validates invalid_dims_params sample_polyline rfl (by decide)⟩

/-- C5: the builder places the 4 floor nodes at the corners of the
rectangle `[0, width] x [0, length]` at `z = floor_thickness/2` and
connects them in that winding order into the floor plane of thickness
`floor_thickness`; the 4 roof nodes sit at the same corners at
`z = height - roof_thickness/2` and form the roof plane of thickness
`roof_thickness`. -/
theorem floor_roof_geometry (params : Params) (pl : GeoPolyline)
    (hpl : params.step1.geo_polyline = some pl)
    (hs : params.step1.segments ≠ 0)
    (_hv : ValidCrossSection params) :
    ∃ m, create_scia_model params = .ok m ∧
      m.nodes.take 4 =
        [⟨("node_floor_1"), 0, 0, params.step2.floor_thickness / 2⟩,
         ⟨("node_floor_2"), 0, pl.rdLength / params.step1.segments,
           params.step2.floor_thickness / 2⟩,
         ⟨("node_floor_3"), params.step2.width,
           pl.rdLength / params.step1.segments,
           params.step2.floor_thickness / 2⟩,
         ⟨("node_floor_4"), params.step2.width, 0,
           params.step2.floor_thickness / 2⟩] ∧
      (m.nodes.drop 4).take 4 =
        [⟨("node_roof_1"), 0, 0,
           params.step2.height - params.step2.roof_thickness / 2⟩,
         ⟨("node_roof_2"), 0, pl.rdLength / params.step1.segments,
           params.step2.height - params.step2.roof_thickness / 2⟩,
         ⟨("node_roof_3"), params.step2.width,
           pl.rdLength / params.step1.segments,
           params.step2.height - params.step2.roof_thickness / 2⟩,
         ⟨("node_roof_4"), params.step2.width, 0,
           params.step2.height - params.step2.roof_thickness / 2⟩] ∧
      m.planes.take 2 =
        [⟨("floor slab"), m.nodes.take 4, params.step2.floor_thickness,
          concrete_slab⟩,
         ⟨("roof slab"), (m.nodes.drop 4).take 4,
          params.step2.roof_thickness, concrete_slab⟩] := by
  refine ⟨model_closed params pl, create_scia_model_eq params pl hpl hs,
    ?_, ?_, ?_⟩
  · simp [model_closed, floor_node_list, roof_node_list, seg_length]
  · simp [model_closed, floor_node_list, roof_node_list, seg_length]
  · simp [model_closed, floor_node_list, roof_node_list, floor_plane_rec,
      roof_plane_rec, seg_length]

/-- Witness for C5 at the sample parameters. -/
theorem floor_roof_geometry_witness :
    sample_params.step1.geo_polyline = some sample_polyline ∧
    sample_params.step1.segments ≠ 0 ∧
    ValidCrossSection sample_params ∧
    (∃ m, create_scia_model sample_params = .ok m ∧
      m.nodes.take 4 =
        [⟨("node_floor_1"), 0, 0, sample_params.step2.floor_thickness / 2⟩,
         ⟨("node_floor_2"), 0, sample_polyline.rdLength / sample_params.step1.segments,
           sample_params.step2.floor_thickness / 2⟩,
         ⟨("node_floor_3"), sample_params.step2.width,
           sample_polyline.rdLength / sample_params.step1.segments,
           sample_params.step2.floor_thickness / 2⟩,
         ⟨("node_floor_4"), sample_params.step2.width, 0,
           sample_params.step2.floor_thickness / 2⟩] ∧
      (m.nodes.drop 4).take 4 =
        [⟨("node_roof_1"), 0, 0,
           sample_params.step2.height - sample_params.step2.roof_thickness / 2⟩,
         ⟨("node_roof_2"), 0, sample_polyline.rdLength / sample_params.step1.segments,
           sample_params.step2.height - sample_params.step2.roof_thickness / 2⟩,
         ⟨("node_roof_3"), sample_params.step2.width,
           sample_polyline.rdLength / sample_params.step1.segments,
           sample_params.step2.height - sample_params.step2.roof_thickness / 2⟩,
         ⟨("node_roof_4"), sample_params.step2.width, 0,
           sample_params.step2.height - sample_params.step2.roof_thickness / 2⟩] ∧
      m.planes.take 2 =
        [⟨("floor slab"), m.nodes.take 4, sample_params.step2.floor_thickness,
          concrete_slab⟩,
         ⟨("roof slab"), (m.nodes.drop 4).take 4,
          sample_params.step2.roof_thickness, concrete_slab⟩]) :=
  ⟨rfl, by decide, by decide,
    floor_roof_geometry sample_params sample_polyline rfl (by decide) (by decide)⟩

/-- C2: for every parameter set with `number_of_sections >= 1` the wall
x-positions are the `number_of_sections + 1` values
`wall_thickness/2 + i * (width - wall_thickness)/number_of_sections`, so
they run from `wall_thickness/2` to `width - wall_thickness/2` inclusive
with spacing `(width - wall_thickness)/number_of_sections`; in the scenario
width 10, wall thickness 1, 2 sections they are `[0.5, 5.0, 9.5]`. -/
theorem section_positions_spec :
    (∀ params : Params, 1 ≤ params.step2.number_of_sections →
      (sections_x params).length = params.step2.number_of_sections + 1 ∧
      (∀ i, i ≤ params.step2.number_of_sections →
        (sections_x params)[i]? =
          some (params.step2.wall_thickness / 2 +
            (i : ℚ) * ((params.step2.width - params.step2.wall_thickness) /
              (params.step2.number_of_sections : ℚ)))) ∧
      (sections_x params)[0]? = some (params.step2.wall_thickness / 2) ∧
      (sections_x params)[params.step2.number_of_sections]? =
        some (params.step2.width - params.step2.wall_thickness / 2)) ∧
    sections_x sample_params = [0.5, 5, 9.5] := by
  constructor
  · intro params hns
    refine ⟨sections_x_length params,
      fun i hi => sections_x_getElem params hns i hi, ?_, ?_⟩
    · rw [sections_x_getElem params hns 0 (by omega)]
      norm_num
    · rw [sections_x_getElem params hns _ le_rfl]
      have hne : ((params.step2.number_of_sections : ℕ) : ℚ) ≠ 0 :=
        Nat.cast_ne_zero.mpr (by omega)
      congr 1
      field_simp
      ring
  · norm_num [sections_x, sample_params, linspace, List.range_succ]

/-- Witness for C2: the general part applied at the sample parameters. -/
theorem section_positions_spec_witness :
    1 ≤ sample_params.step2.number_of_sections ∧
    ((sections_x sample_params).length = sample_params.step2.number_of_sections + 1 ∧
      (∀ i, i ≤ sample_params.step2.number_of_sections →
        (sections_x sample_params)[i]? =
          some (sample_params.step2.wall_thickness / 2 +
            (i : ℚ) * ((sample_params.step2.width - sample_params.step2.wall_thickness) /
              (sample_params.step2.number_of_sections : ℚ)))) ∧
      (sections_x sample_params)[0]? = some (sample_params.step2.wall_thickness / 2) ∧
      (sections_x sample_params)[sample_params.step2.number_of_sections]? =
        some (sample_params.step2.width - sample_params.step2.wall_thickness / 2)) :=
  ⟨by decide, section_positions_spec.1 sample_params (by decide)⟩

/-- C3: the single surface load of every built model targets the roof
plane in the global Z direction with magnitude exactly
`roof_load * (-1000)`; at the sample roof load of 5 kN the stored force is
-5000. -/
theorem roof_load_conversion :
    (∀ (params : Params) (pl : GeoPolyline),
      params.step1.geo_polyline = some pl → params.step1.segments ≠ 0 →
      ∃ m, create_scia_model params = .ok m ∧
        m.surface_loads.map SciaSurfaceLoad.force =
          [params.step3.roof_load * (-1000)] ∧
        m.surface_loads.map SciaSurfaceLoad.plane_name = [("roof slab")] ∧
        m.surface_loads.map SciaSurfaceLoad.direction = [("Z")]) ∧
    (∃ m, create_scia_model sample_params = .ok m ∧
      m.surface_loads.map SciaSurfaceLoad.force = [-5000]) := by
  constructor
  · intro params pl hpl hs
    exact ⟨model_closed params pl, create_scia_model_eq params pl hpl hs,
      rfl, rfl, rfl⟩
  · refine ⟨model_closed sample_params sample_polyline,
      create_scia_model_eq sample_params sample_polyline rfl (by decide), ?_⟩
    show (model_closed sample_params sample_polyline).surface_loads.map
        SciaSurfaceLoad.force = [-5000]
    norm_num [model_closed, sample_params]

/-- Witness for C3: the general part applied at the sample parameters. -/
theorem roof_load_conversion_witness :
    sample_params.step1.geo_polyline = some sample_polyline ∧
    sample_params.step1.segments ≠ 0 ∧
    (∃ m, create_scia_model sample_params = .ok m ∧
      m.surface_loads.map SciaSurfaceLoad.force =
        [sample_params.step3.roof_load * (-1000)] ∧
      m.surface_loads.map SciaSurfaceLoad.plane_name = [("roof slab")] ∧
      m.surface_loads.map SciaSurfaceLoad.direction = [("Z")]) :=
  ⟨rfl, by decide,
    roof_load_conversion.1 sample_params sample_polyline rfl (by decide)⟩

/-- C4: for every polyline with at least 2 points and every segment count
`n >= 1` the map view handler produces exactly `n` ribbon polygons, the
`i`-th built from the centerline substring between arc lengths `i*(L/n)`
and `(i+1)*(L/n)`, and the substring arc lengths sum exactly to the total
projected length `L`; in the scenario of a length-100 polyline with 4
segments the four substrings each have arc length 25. -/
theorem segment_decomposition :
    (∀ (params : Params) (pl : GeoPolyline),
      params.step1.geo_polyline = some pl →
      2 ≤ pl.points.length →
      1 ≤ params.step1.segments →
      ∃ fs, visualize_tunnel params = .ok (fs ++ [Feature.polyline]) ∧
        fs.length = params.step1.segments ∧
        (∀ i, i < params.step1.segments →
          fs[i]? = some (.polygon
            ((i : ℚ) * (pl.rdLength / params.step1.segments))
            (((i : ℚ) + 1) * (pl.rdLength / params.step1.segments)))) ∧
        (fs.map Feature.arcLength).sum = pl.rdLength) ∧
    visualize_tunnel sample_params = .ok
      [.polygon 0 25, .polygon 25 50, .polygon 50 75, .polygon 75 100,
       .polyline] := by
  constructor
  · intro params pl hpl hpts hn
    have hs : params.step1.segments ≠ 0 := by omega
    have hq : ((params.step1.segments : ℕ) : ℚ) ≠ 0 := Nat.cast_ne_zero.mpr hs
    refine ⟨(List.range params.step1.segments).map
        (fun i : ℕ => Feature.polygon
          ((i : ℚ) * (pl.rdLength / params.step1.segments))
          (((i : ℚ) + 1) * (pl.rdLength / params.step1.segments))),
      ?_, by simp, ?_, ?_⟩
    · simp [visualize_tunnel, hpl, hs]
    · intro i hi
      rw [List.getElem?_map, List.getElem?_range hi]
      rfl
    · rw [List.map_map]
      have h1 : (List.range params.step1.segments).map
          (Feature.arcLength ∘ fun i : ℕ => Feature.polygon
            ((i : ℚ) * (pl.rdLength / params.step1.segments))
            (((i : ℚ) + 1) * (pl.rdLength / params.step1.segments))) =
          (List.range params.step1.segments).map
            (fun _ => pl.rdLength / params.step1.segments) := by
        apply List.map_congr_left
        intro i _
        simp [Feature.arcLength]
        ring
      rw [h1, List.map_const', List.sum_replicate, List.length_range,
        nsmul_eq_mul]
      field_simp
  · norm_num [visualize_tunnel, sample_params, sample_polyline,
      List.range_succ]

/-- Witness for C4: the general part applied at the sample parameters. -/
theorem segment_decomposition_witness :
    sample_params.step1.geo_polyline = some sample_polyline ∧
    2 ≤ sample_polyline.points.length ∧
    1 ≤ sample_params.step1.segments ∧
    (∃ fs, visualize_tunnel sample_params = .ok (fs ++ [Feature.polyline]) ∧
      fs.length = sample_params.step1.segments ∧
      (∀ i, i < sample_params.step1.segments →
        fs[i]? = some (.polygon
          ((i : ℚ) * (sample_polyline.rdLength / sample_params.step1.segments))
          (((i : ℚ) + 1) * (sample_polyline.rdLength / sample_params.step1.segments)))) ∧
      (fs.map Feature.arcLength).sum = sample_polyline.rdLength) :=
  ⟨rfl, by decide, by decide,
    segment_decomposition.1 sample_params sample_polyline rfl (by decide) (by decide)⟩

/-- C8: the visualization geometry builder computes its wall x-position
array with the identical linspace formula as the structural model builder,
so the two agree position for position; moreover the interior wall
extrusions it emits (after floor, roof, left wall and right wall) are
centred exactly on the interior structural wall positions. -/
theorem viz_matches_structural :
    (∀ params : Params,
      viz_sections_x params = sections_x params ∧
      ∀ i : ℕ, (viz_sections_x params)[i]? = (sections_x params)[i]?) ∧
    (∀ (params : Params) (pl : GeoPolyline),
      params.step1.geo_polyline = some pl → params.step1.segments ≠ 0 →
      (create_visualization_geometries params).map (fun g => g.drop 4) =
        .ok ((((sections_x params).drop 1).dropLast).map
          (fun section_x =>
            (⟨[(0, 0),
               (0, params.step2.height - params.step2.floor_thickness -
                 params.step2.roof_thickness),
               (pl.rdLength / params.step1.segments,
                params.step2.height - params.step2.floor_thickness -
                 params.step2.roof_thickness),
               (pl.rdLength / params.step1.segments, 0), (0, 0)],
              (section_x - params.step2.wall_thickness / 2, 0,
                params.step2.floor_thickness),
              (section_x + params.step2.wall_thickness / 2, 0,
                params.step2.floor_thickness), 90⟩ : Extrusion)))) := by
  constructor
  · exact fun params => ⟨rfl, fun i => rfl⟩
  · intro params pl hpl hs
    simp [create_visualization_geometries, hpl, hs, viz_sections_x,
      sections_x]
    rfl

/-- Witness for C8 at the sample parameters. -/
theorem viz_matches_structural_witness :
    sample_params.step1.geo_polyline = some sample_polyline ∧
    sample_params.step1.segments ≠ 0 ∧
    (viz_sections_x sample_params = sections_x sample_params ∧
      ∀ i : ℕ, (viz_sections_x sample_params)[i]? = (sections_x sample_params)[i]?) ∧
    (create_visualization_geometries sample_params).map (fun g => g.drop 4) =
      .ok ((((sections_x sample_params).drop 1).dropLast).map
        (fun section_x =>
          (⟨[(0, 0),
             (0, sample_params.step2.height - sample_params.step2.floor_thickness -
               sample_params.step2.roof_thickness),
             (sample_polyline.rdLength / sample_params.step1.segments,
              sample_params.step2.height - sample_params.step2.floor_thickness -
               sample_params.step2.roof_thickness),
             (sample_polyline.rdLength / sample_params.step1.segments, 0), (0, 0)],
            (section_x - sample_params.step2.wall_thickness / 2, 0,
              sample_params.step2.floor_thickness),
            (section_x + sample_params.step2.wall_thickness / 2, 0,
              sample_params.step2.floor_thickness), 90⟩ : Extrusion))) :=
  ⟨rfl, by decide, viz_matches_structural.1 sample_params,
    viz_matches_structural.2 sample_params sample_polyline rfl (by decide)⟩
